import Mathlib

/-!
Verification development for the Triage AI repository.

Shallow embedding of the data model (`models/schemas.py`), the session
state machine (`main.py`), the three pipeline stages
(`agents/anamnesis.py`, `agents/triage.py`, `agents/routing.py`) and the
orchestrator (`main.py`).  External collaborators (the completion
service, the vector store) are modelled by quantifying over their
outcomes; everything the repository's own code does to those outcomes is
translated literally.
-/

namespace TriageAI

/-! ## Enumerations (models/schemas.py, lines 8-29) -/

/-- Manchester Triage Protocol colors (`TriageColor` in schemas.py). -/
inductive TriageColor where
  | red
  | yellow
  | green
  | blue
deriving DecidableEq, Repr

/-- String value of each `TriageColor` member (the Python enum is a `str` enum). -/
def TriageColor.value : TriageColor → String
  | .red => "RED"
  | .yellow => "YELLOW"
  | .green => "GREEN"
  | .blue => "BLUE"

/-- Priority levels (`Priority` in schemas.py). -/
inductive Priority where
  | emergency
  | urgent
  | standard
  | low
deriving DecidableEq, Repr

/-- String value of each `Priority` member. -/
def Priority.value : Priority → String
  | .emergency => "EMERGENCY"
  | .urgent => "URGENT"
  | .standard => "STANDARD"
  | .low => "LOW"

/-- Urgency levels for routing (`Urgency` in schemas.py). -/
inductive Urgency where
  | immediate
  | within30Min
  | within1Hour
  | standard
deriving DecidableEq, Repr

/-- String value of each `Urgency` member. -/
def Urgency.value : Urgency → String
  | .immediate => "Immediate"
  | .within30Min => "Within 30 min"
  | .within1Hour => "Within 1 hour"
  | .standard => "Standard"

/-- Python's `TriageColor(value)` enum lookup: succeeds exactly on the four
member values, raises `ValueError` otherwise (modelled as `none`).
Used at `triage.py` line 141. -/
def parseTriageColor (s : String) : Option TriageColor :=
  if s = "RED" then some .red
  else if s = "YELLOW" then some .yellow
  else if s = "GREEN" then some .green
  else if s = "BLUE" then some .blue
  else none

/-- The color-to-priority table `COLOR_TO_PRIORITY` (triage.py, lines 17-22).
The Python dict has exactly the four colors as keys, so the subscript
access `COLOR_TO_PRIORITY[color]` is total over `TriageColor`. -/
def COLOR_TO_PRIORITY : TriageColor → Priority
  | .red => .emergency
  | .yellow => .urgent
  | .green => .standard
  | .blue => .low

/-- The color-to-urgency table `COLOR_TO_URGENCY` (routing.py, lines 22-27). -/
def COLOR_TO_URGENCY : TriageColor → Urgency
  | .red => .immediate
  | .yellow => .within30Min
  | .green => .within1Hour
  | .blue => .standard

/-- The `urgency_map.get` lookup built inside `RoutingAgent.route`
(routing.py, lines 206-211): exact match on the four urgency strings,
`none` for every other string. -/
def urgency_map_get (s : String) : Option Urgency :=
  if s = "Immediate" then some .immediate
  else if s = "Within 30 min" then some .within30Min
  else if s = "Within 1 hour" then some .within1Hour
  else if s = "Standard" then some .standard
  else none

/-! ## Python string primitives used by the handlers and stages,
modelled by structural recursion so that concrete runs evaluate -/

/-- Python `str.isspace` characters relevant to `str.strip()`. -/
def pySpace (c : Char) : Bool :=
  c = ' ' || c = '\t' || c = '\n' || c = '\r' || c = '\x0b' || c = '\x0c'

/-- Python `text.strip()`: remove leading and trailing whitespace. -/
def pyStrip (s : String) : String :=
  String.mk (((s.toList.dropWhile pySpace).reverse.dropWhile pySpace).reverse)

/-- Python `s.startswith(p)`. -/
def pyStartsWith (s p : String) : Bool :=
  p.toList.isPrefixOf s.toList

/-- Helper for `pySplitLines`: split a character list at every newline,
keeping empty segments, exactly like Python `str.split("\n")`. -/
def splitNl : List Char → List (List Char)
  | [] => [[]]
  | c :: rest =>
      match splitNl rest with
      | [] => [[c]]
      | h :: t => if c = '\n' then [] :: h :: t else (c :: h) :: t

/-- Python `text.split("\n")`. -/
def pySplitLines (s : String) : List String :=
  (splitNl s.toList).map String.mk

/-- Python `"\n".join(lines)`. -/
def joinNl (xs : List String) : String :=
  String.mk (List.intercalate ['\n'] (xs.map String.toList))

/-! ## Structured records (models/schemas.py, lines 36-181) -/

/-- Structured patient anamnesis (`Anamnesis` in schemas.py).
`pain_scale` is the optional integer field carrying the `ge=1, le=10`
pydantic constraint; list fields default to empty. -/
structure Anamnesis where
  patient_name : String
  date_of_birth : String
  phone_number : Option String
  emergency_contact_name : Option String
  emergency_contact_phone : Option String
  chief_complaint : String
  onset : String
  duration : Option String
  pain_scale : Option Int
  pain_type : Option String
  location : Option String
  radiation : Option String
  associated_symptoms : List String
  medical_history : List String
  current_medications : List String
  allergies : List String
deriving DecidableEq, Repr

/-- Manchester triage classification result (`TriageClassification` in schemas.py). -/
structure TriageClassification where
  color : TriageColor
  priority : Priority
  reasoning : String
  risk_factors : List String
  matched_protocols : List String
deriving DecidableEq, Repr

/-- Routing decision (`Routing` in schemas.py). -/
structure Routing where
  department : String
  doctor_type : String
  urgency : Urgency
  room_type : Option String
  preliminary_orders : List String
  contraindications : List String
  notes_for_staff : String
deriving DecidableEq, Repr

/-- Complete triage result (`TriageResult` in schemas.py).  The wall-clock
`timestamp` field (a `datetime` default factory) is outside the shallow
embedding of program logic and is omitted. -/
structure TriageResult where
  session_id : String
  anamnesis : Anamnesis
  classification : TriageClassification
  routing : Routing
deriving DecidableEq, Repr

/-! ## Classification Stage (agents/triage.py, TriageAgent.classify) -/

/-- The JSON object parsed from the completion-service response inside
`TriageAgent.classify` (triage.py, lines 138-148), as the code reads it:
`data["color"]` and `data["reasoning"]` are required key accesses,
`risk_factors` / `matched_protocols` use `.get` with a default.
`suggested_priority` stands for a `priority` key the completion service
may also have emitted; the code never reads such a key. -/
structure TriageOutputData where
  color : String
  reasoning : String
  risk_factors : Option (List String)
  matched_protocols : Option (List String)
  suggested_priority : Option String
deriving DecidableEq, Repr

/-- Error raised when `TriageColor(data["color"])` fails (the `ValueError`
from the enum lookup; the spec calls it `ClassificationParseError`). -/
inductive ClassificationError where
  | classificationParseError
deriving DecidableEq, Repr

/-- The result-construction tail of `TriageAgent.classify` (triage.py,
lines 140-149): map the color string through the enum, derive priority
from the `COLOR_TO_PRIORITY` table, default the two list fields. -/
def classify (d : TriageOutputData) : Except ClassificationError TriageClassification :=
  match parseTriageColor d.color with
  | none => .error .classificationParseError
  | some color =>
      .ok { color := color
            priority := COLOR_TO_PRIORITY color
            reasoning := d.reasoning
            risk_factors := d.risk_factors.getD []
            matched_protocols := d.matched_protocols.getD [] }

/-! ## Routing Stage (agents/routing.py, RoutingAgent.route) -/

/-- The JSON object parsed from the completion-service response inside
`RoutingAgent.route` (routing.py, lines 203-221): `department`,
`doctor_type` and `urgency` are required key accesses, the rest use
`.get` with defaults. -/
structure RoutingOutputData where
  department : String
  doctor_type : String
  urgency : String
  room_type : Option String
  preliminary_orders : Option (List String)
  contraindications : Option (List String)
  notes_for_staff : Option String
deriving DecidableEq, Repr

/-- The result-construction tail of `RoutingAgent.route` (routing.py,
lines 205-221).  Total: an unrecognized urgency string falls back to
`COLOR_TO_URGENCY[classification.color]` via `urgency_map.get`, it never
fails the stage. -/
def route (d : RoutingOutputData) (classification : TriageClassification) : Routing :=
  { department := d.department
    doctor_type := d.doctor_type
    urgency := (urgency_map_get d.urgency).getD (COLOR_TO_URGENCY classification.color)
    room_type := d.room_type
    preliminary_orders := d.preliminary_orders.getD []
    contraindications := d.contraindications.getD []
    notes_for_staff := d.notes_for_staff.getD "" }

/-! ## Extraction Stage validation (agents/anamnesis.py line 153 and the
pydantic constraints of schemas.py lines 36-107) -/

/-- The field values handed to `Anamnesis(**data)` by
`AnamnesisAgent.process` (anamnesis.py line 153), before pydantic
validation.  Required string fields are present; optional fields are
`Option`; list fields absent from the JSON default to `[]` via the
pydantic `default_factory`. -/
structure AnamnesisInput where
  patient_name : String
  date_of_birth : String
  phone_number : Option String
  emergency_contact_name : Option String
  emergency_contact_phone : Option String
  chief_complaint : String
  onset : String
  duration : Option String
  pain_scale : Option Int
  pain_type : Option String
  location : Option String
  radiation : Option String
  associated_symptoms : Option (List String)
  medical_history : Option (List String)
  current_medications : Option (List String)
  allergies : Option (List String)
deriving DecidableEq, Repr

/-- Validation failure from `Anamnesis(**data)` (pydantic raises a
`ValidationError` when `pain_scale` violates `ge=1, le=10`; the spec
calls it `ExtractionValidationError`). -/
inductive ExtractionValidationError where
  | painScaleOutOfRange
deriving DecidableEq, Repr

/-- Construction of the validated `Anamnesis` (schemas.py lines 36-107):
the only value constraint on the model is `pain_scale : ge=1, le=10`
when present; `None` is accepted; the value is stored unchanged (pydantic
rejects, it never clamps). -/
def Anamnesis.validate (i : AnamnesisInput) : Except ExtractionValidationError Anamnesis :=
  match i.pain_scale with
  | some n =>
      if 1 ≤ n ∧ n ≤ 10 then
        .ok { patient_name := i.patient_name
              date_of_birth := i.date_of_birth
              phone_number := i.phone_number
              emergency_contact_name := i.emergency_contact_name
              emergency_contact_phone := i.emergency_contact_phone
              chief_complaint := i.chief_complaint
              onset := i.onset
              duration := i.duration
              pain_scale := some n
              pain_type := i.pain_type
              location := i.location
              radiation := i.radiation
              associated_symptoms := i.associated_symptoms.getD []
              medical_history := i.medical_history.getD []
              current_medications := i.current_medications.getD []
              allergies := i.allergies.getD [] }
      else .error .painScaleOutOfRange
  | none =>
      .ok { patient_name := i.patient_name
            date_of_birth := i.date_of_birth
            phone_number := i.phone_number
            emergency_contact_name := i.emergency_contact_name
            emergency_contact_phone := i.emergency_contact_phone
            chief_complaint := i.chief_complaint
            onset := i.onset
            duration := i.duration
            pain_scale := none
            pain_type := i.pain_type
            location := i.location
            radiation := i.radiation
            associated_symptoms := i.associated_symptoms.getD []
            medical_history := i.medical_history.getD []
            current_medications := i.current_medications.getD []
            allergies := i.allergies.getD [] }

/-! ## Question catalog (chat/questions.py) -/

/-- One entry of the fixed question catalog (`AnamnesisQuestion` in
questions.py): its number and the `Anamnesis` field it feeds.  The
per-language question texts are static display data; they are never
reached by the chat handler in this code (see `chat` below: the handler
fails on the missing `language` field before any text lookup). -/
structure AnamnesisQuestion where
  number : Nat
  field_name : String
deriving DecidableEq, Repr

/-- The fixed catalog `ANAMNESIS_QUESTIONS` (questions.py, lines 49-207):
fourteen questions, numbered contiguously from 1. -/
def ANAMNESIS_QUESTIONS : List AnamnesisQuestion :=
  [⟨1, "patient_name"⟩,
   ⟨2, "date_of_birth"⟩,
   ⟨3, "phone_number"⟩,
   ⟨4, "emergency_contact_name"⟩,
   ⟨5, "emergency_contact_phone"⟩,
   ⟨6, "chief_complaint"⟩,
   ⟨7, "onset"⟩,
   ⟨8, "pain_scale"⟩,
   ⟨9, "location"⟩,
   ⟨10, "radiation"⟩,
   ⟨11, "associated_symptoms"⟩,
   ⟨12, "medical_history"⟩,
   ⟨13, "current_medications"⟩,
   ⟨14, "allergies"⟩]

/-- `get_total_questions` (questions.py, lines 241-243): the length of the
catalog list. -/
def get_total_questions : Nat := ANAMNESIS_QUESTIONS.length

/-- `LANGUAGE_OPTIONS` (questions.py, lines 24-29), a dict from language
code to display name; membership tests in `chat` are over its keys. -/
def LANGUAGE_OPTIONS : List (String × String) :=
  [("en", "English"),
   ("es", "Español"),
   ("pt-BR", "Português (Brasil)"),
   ("it", "Italiano")]

/-- Key set of `LANGUAGE_OPTIONS` (Python `code in LANGUAGE_OPTIONS`
checks dict keys). -/
def languageOptionKeys : List String := LANGUAGE_OPTIONS.map Prod.fst

/-! ## Session storage and the chat handler (main.py) -/

/-- Internal session storage model (`SessionData` in schemas.py, lines
253-274).  The `answers` dict is modelled as a partial map on question
numbers.  Note the source defaults: `current_question = 1`, empty
`answers`, `is_complete = False` — and note that `SessionData` declares
NO `language` field, although `main.py` reads and writes
`session.language`.  The `created_at` timestamp and the three
post-pipeline `Option` fields are not touched by the chat handler and
are omitted here. -/
structure SessionData where
  session_id : String
  answers : Nat → Option String
  current_question : Nat
  is_complete : Bool

/-- The `create_session` endpoint (main.py, lines 116-132): stores a fresh
`SessionData(session_id=...)`, so every field takes its schema default —
in particular `current_question = 1`. -/
def create_session (sid : String) : SessionData :=
  { session_id := sid
    answers := fun _ => none
    current_question := 1
    is_complete := false }

/-- Outcomes of one `chat` call that are not a normal `ChatResponse`
(main.py, lines 135-198):
* `sessionAlreadyComplete` — the HTTP 400 "Session already complete";
* `invalidLanguageSelection` — the HTTP 400 "Invalid language selection";
* `noSuchFieldLanguage` — the `ValueError` pydantic raises at line 163
  (`session.language = language_code`) because `SessionData` declares no
  `language` field;
* `attributeErrorLanguage` — the `AttributeError` raised at line 191
  (`get_question_text(session.current_question, session.language)`) when
  reading the non-existent `session.language`. -/
inductive ChatError where
  | sessionAlreadyComplete
  | invalidLanguageSelection
  | noSuchFieldLanguage
  | attributeErrorLanguage
deriving DecidableEq, Repr

/-- Response model of the chat endpoint (`ChatResponse` in schemas.py). -/
structure ChatResponse where
  session_id : String
  question_number : Nat
  next_question : Option String
  is_complete : Bool
deriving DecidableEq, Repr

/-- The `chat` endpoint handler (main.py, lines 135-198) on a session that
was found in the registry, returning the session state as it is left in
the registry together with the HTTP outcome.  Translated line by line:
the completeness guard (150), the unconditional answer store (154), the
question-0 language branch (157-173) — dead under the source default
`current_question = 1`, and crashing at the `session.language`
assignment when taken — the increment (176), the completion branch
(181-188), and the next-question branch (190-198), which crashes reading
`session.language`. -/
def chat (s : SessionData) (m : String) : SessionData × Except ChatError ChatResponse :=
  if s.is_complete then
    (s, .error .sessionAlreadyComplete)
  else
    -- line 154: session.answers[session.current_question] = message.message
    let s1 : SessionData :=
      { s with answers := fun q => if q = s.current_question then some m else s.answers q }
    if s1.current_question = 0 then
      -- lines 157-164: language selection
      let language_code := pyStrip m
      if languageOptionKeys.contains language_code = false then
        (s1, .error .invalidLanguageSelection)
      else
        -- line 163: `session.language = language_code` raises (no such field)
        (s1, .error .noSuchFieldLanguage)
    else
      -- line 176: session.current_question += 1
      let s2 : SessionData := { s1 with current_question := s1.current_question + 1 }
      if s2.current_question > get_total_questions then
        -- lines 181-188
        ({ s2 with is_complete := true },
         .ok { session_id := s.session_id
               question_number := get_total_questions
               next_question := none
               is_complete := true })
      else
        -- line 191: `session.language` raises AttributeError
        (s2, .error .attributeErrorLanguage)

/-- Sessions reachable in the running application: created by
`create_session` and then mutated by `chat` calls (the registry keeps the
post-state of every call, including the calls whose HTTP outcome is an
error, because `chat` mutates before it raises). -/
inductive ReachableSession : SessionData → Prop where
  | create (sid : String) : ReachableSession (create_session sid)
  | step (s : SessionData) (m : String) (hs : ReachableSession s) :
      ReachableSession (chat s m).1

/-! ## Extraction output text handling (agents/anamnesis.py, lines 141-151,
and the unused helper agents/crew.py TriageCrew._extract_json, lines 307-327) -/

/-- The fence strip performed by `AnamnesisAgent.process` once the text
starts with three backticks (anamnesis.py lines 145-148,
`lines[1:-1]`): the first and the last line are removed, whatever the
last line contains. -/
def anamnesisFenceStrip (lines : List String) : List String :=
  (lines.drop 1).dropLast

/-- The full response-text handling of `AnamnesisAgent.process`
(anamnesis.py, lines 142-151): `.strip()`, then — when the text starts
with three backticks — split into lines, drop the first and last line
and re-join.  The returned string is handed whole to `json.loads`; no
brace-delimited span is located. -/
def anamnesisResponseCandidate (text : String) : String :=
  let t := pyStrip text
  if pyStartsWith t "```" then
    joinNl (anamnesisFenceStrip (pySplitLines t))
  else t

/-- Parse failures of the extraction output handling as the spec names
them (`ExtractionParseError`). -/
inductive ExtractionParseError where
  | fenceNotClosed
  | noJsonObject
deriving DecidableEq, Repr

/-- Index of the first occurrence of `c` in `cs`, if any. -/
def firstIdxOf (cs : List Char) (c : Char) : Option Nat :=
  cs.findIdx? (· = c)

/-- Index of the last occurrence of `c` in `cs`, if any. -/
def lastIdxOf (cs : List Char) (c : Char) : Option Nat :=
  match (cs.reverse.findIdx? (· = c)) with
  | none => none
  | some i => some (cs.length - 1 - i)

/-- Modelled from the spec's description of the Extraction Stage output
handling (spec sections 4.2 and its restatement in the claim): strip the
fence only when the first AND last lines are fence markers, treat an
opened-but-unclosed fence as `fenceNotClosed`, then locate the outermost
brace-delimited span and return it (the text that would be parsed);
absence of such a span is `noJsonObject`.  This is the refinement
comparison point for the source's `anamnesisResponseCandidate`. -/
def specResponseCandidate (text : String) : Except ExtractionParseError String :=
  let t := pyStrip text
  let afterFence : Except ExtractionParseError String :=
    if pyStartsWith t "```" then
      let lines := pySplitLines t
      if pyStrip (lines.getLast?.getD "") = "```" ∧ 2 ≤ lines.length then
        .ok (joinNl ((lines.drop 1).dropLast))
      else .error .fenceNotClosed
    else .ok t
  match afterFence with
  | .error e => .error e
  | .ok body =>
      let cs := body.toList
      match firstIdxOf cs '\x7b', lastIdxOf cs '\x7d' with
      | some i, some j =>
          if i < j + 1 then .ok (String.mk ((cs.drop i).take (j + 1 - i)))
          else .error .noJsonObject
      | _, _ => .error .noJsonObject

/-! ## Pipeline orchestrator (main.py, process_triage and get_result) -/

/-- The error kinds that can abort the `try` block of `process_triage`
(main.py, lines 227-253): the `AttributeError` from evaluating the
argument `session.language` at line 229, and the three stage failures
the spec names. -/
inductive PipelineError where
  | attributeErrorLanguage
  | extractionParseError
  | extractionValidationError
  | classificationParseError
  | routingParseError
deriving DecidableEq, Repr

/-- The body of the `try` block of `process_triage` (main.py, lines
227-248), with the outcomes of the external-service-backed steps as
parameters: first the `session.language` attribute read (evaluated as an
argument at line 229), then the three stages strictly in sequence; each
later stage runs only when every earlier step succeeded, and the
`TriageResult` aggregate is built only from a fully successful run. -/
def pipelineBody (langRead : Except PipelineError String)
    (extractStage : String → Except PipelineError Anamnesis)
    (classifyStage : Anamnesis → Except PipelineError TriageClassification)
    (routeStage : Anamnesis → TriageClassification → Except PipelineError Routing)
    (sid : String) : Except PipelineError TriageResult := do
  let language ← langRead
  let anamnesis ← extractStage language
  let classification ← classifyStage anamnesis
  let routing ← routeStage anamnesis classification
  .ok { session_id := sid
        anamnesis := anamnesis
        classification := classification
        routing := routing }

/-- The `session.language` read of main.py line 229 as it behaves on the
source's `SessionData`, which declares no `language` field: it raises
`AttributeError` unconditionally. -/
def appSessionLanguageRead : Except PipelineError String :=
  .error .attributeErrorLanguage

/-- Non-2xx outcomes of the two job endpoints (main.py): the 400 of an
incomplete session, the 500 raised from the `except` block with the
originating exception's message, and the 404 of an unknown job id. -/
inductive HttpError where
  | anamnesisNotComplete
  | internalServerError (e : PipelineError)
  | jobNotFound
deriving DecidableEq, Repr

/-- Response model of the process endpoint (`ProcessResponse` in schemas.py). -/
structure ProcessResponse where
  status : String
  job_id : String
deriving DecidableEq, Repr

/-- Response model of the result endpoint (`ResultResponse` in schemas.py). -/
structure ResultResponse where
  status : String
  result : Option TriageResult
  error : Option String
deriving DecidableEq, Repr

/-- The `process_triage` endpoint (main.py, lines 201-258) on a session
found in the registry, with the `try`-block outcome as a parameter.  It
returns the `job_results` registry entry left behind for the generated
job id (`none` when no job was created, `some v` when `job_results[job]
= v`) together with the HTTP outcome.  On any exception the entry is
re-set to `None` (line 252, despite the comment "Store error for
retrieval") and the error is surfaced only on this response, as an HTTP
500. -/
def process_triage (s : SessionData) (jobId : String)
    (body : Except PipelineError TriageResult) :
    Option (Option TriageResult) × Except HttpError ProcessResponse :=
  if s.is_complete = false then
    (none, .error .anamnesisNotComplete)
  else
    match body with
    | .ok result => (some (some result), .ok { status := "completed", job_id := jobId })
    | .error e => (some none, .error (.internalServerError e))

/-- The `get_result` endpoint (main.py, lines 261-279) as a function of
the `job_results` registry entry for the polled id: missing id is a 404;
a `None` entry reports `processing` with no result and no error; a
stored result reports `completed`. -/
def get_result (entry : Option (Option TriageResult)) : Except HttpError ResultResponse :=
  match entry with
  | none => .error .jobNotFound
  | some none => .ok { status := "processing", result := none, error := none }
  | some (some r) => .ok { status := "completed", result := some r, error := none }

/-! ## Shared helper lemmas -/

/-- A `chat` call on a completed session raises before any mutation. -/
theorem chat_on_complete (s : SessionData) (m : String) (h : s.is_complete = true) :
    chat s m = (s, .error .sessionAlreadyComplete) := by
  simp [chat, h]

/-- A `chat` call writes at most the key `current_question` of `answers`. -/
theorem chat_answers_at_other_keys (s : SessionData) (m : String) (q : Nat)
    (hq : q ≠ s.current_question) :
    (chat s m).1.answers q = s.answers q := by
  unfold chat
  by_cases hc : s.is_complete
  · simp [hc]
  · simp only [hc, Bool.false_eq_true, if_false]
    by_cases h0 : s.current_question = 0
    · simp only [if_pos h0]
      split <;> simp [hq]
    · simp only [if_neg h0]
      split <;> simp [hq]

/-! ## Claim theorems -/

/-- C1: every classification produced by the Classification Stage has its
priority equal to the fixed pure function `COLOR_TO_PRIORITY` of its
color — RED to EMERGENCY, YELLOW to URGENT, GREEN to STANDARD, BLUE to
LOW — and `classify` is independent of any priority value the completion
service's JSON output may contain. -/
theorem classify_priority_pure_function_of_color :
    (∀ (d : TriageOutputData) (c : TriageClassification),
        classify d = .ok c → c.priority = COLOR_TO_PRIORITY c.color)
    ∧ (∀ (d : TriageOutputData) (p : Option String),
        classify { d with suggested_priority := p } = classify d)
    ∧ COLOR_TO_PRIORITY .red = .emergency
    ∧ COLOR_TO_PRIORITY .yellow = .urgent
    ∧ COLOR_TO_PRIORITY .green = .standard
    ∧ COLOR_TO_PRIORITY .blue = .low := by
  refine ⟨?_, ?_, rfl, rfl, rfl, rfl⟩
  · intro d c h
    unfold classify at h
    cases hp : parseTriageColor d.color with
    | none => rw [hp] at h; exact Except.noConfusion h
    | some col =>
        rw [hp] at h
        injection h with h'
        rw [← h']
  · intro d p
    rfl

/-- Witness for C1: a concrete RED output that also suggests the
contradictory priority "LOW"; the produced priority is still the table
value for RED. -/
theorem classify_priority_pure_function_of_color_witness :
    ({ color := .red, priority := .emergency, reasoning := "cardiac",
       risk_factors := [], matched_protocols := [] } : TriageClassification).priority
      = COLOR_TO_PRIORITY
          ({ color := .red, priority := .emergency, reasoning := "cardiac",
             risk_factors := [], matched_protocols := [] } : TriageClassification).color :=
  classify_priority_pure_function_of_color.1
    { color := "RED", reasoning := "cardiac", risk_factors := none,
      matched_protocols := none, suggested_priority := some "LOW" }
    { color := .red, priority := .emergency, reasoning := "cardiac",
      risk_factors := [], matched_protocols := [] }
    rfl

/-- C5: the Classification Stage fails with a classification parse error
exactly when the parsed color string is not one of RED, YELLOW, GREEN,
BLUE (it never falls back to a default color), and succeeds carrying
that color otherwise. -/
theorem classify_color_validation :
    (∀ d : TriageOutputData,
        ¬(d.color = "RED" ∨ d.color = "YELLOW" ∨ d.color = "GREEN" ∨ d.color = "BLUE") →
        classify d = .error .classificationParseError)
    ∧ (∀ (d : TriageOutputData) (c : TriageColor),
        parseTriageColor d.color = some c →
        c.value = d.color ∧ ∃ out, classify d = .ok out ∧ out.color = c)
    ∧ (∀ s : String,
        (∃ c, parseTriageColor s = some c) ↔
        (s = "RED" ∨ s = "YELLOW" ∨ s = "GREEN" ∨ s = "BLUE")) := by
  refine ⟨?_, ?_, ?_⟩
  · intro d h
    have hp : parseTriageColor d.color = none := by
      unfold parseTriageColor
      split_ifs with h1 h2 h3 h4
      · exact absurd (Or.inl h1) h
      · exact absurd (Or.inr (Or.inl h2)) h
      · exact absurd (Or.inr (Or.inr (Or.inl h3))) h
      · exact absurd (Or.inr (Or.inr (Or.inr h4))) h
      · rfl
    unfold classify
    rw [hp]
  · intro d c hc
    refine ⟨?_, ⟨_, by unfold classify; rw [hc], rfl⟩⟩
    unfold parseTriageColor at hc
    split_ifs at hc with h1 h2 h3 h4
    · injection hc with hc'; rw [← hc', h1]; rfl
    · injection hc with hc'; rw [← hc', h2]; rfl
    · injection hc with hc'; rw [← hc', h3]; rfl
    · injection hc with hc'; rw [← hc', h4]; rfl
  · intro s
    unfold parseTriageColor
    split_ifs with h1 h2 h3 h4 <;> simp_all

/-- Witness for C5 at the concrete invalid color "PURPLE" and the
concrete valid color "BLUE". -/
theorem classify_color_validation_witness :
    classify { color := "PURPLE", reasoning := "r", risk_factors := none,
               matched_protocols := none, suggested_priority := none }
      = .error .classificationParseError
    ∧ (TriageColor.blue.value
        = ({ color := "BLUE", reasoning := "r", risk_factors := none,
             matched_protocols := none,
             suggested_priority := none } : TriageOutputData).color
       ∧ ∃ out,
          classify { color := "BLUE", reasoning := "r", risk_factors := none,
                     matched_protocols := none, suggested_priority := none }
            = .ok out
          ∧ out.color = .blue) :=
  ⟨classify_color_validation.1
      { color := "PURPLE", reasoning := "r", risk_factors := none,
        matched_protocols := none, suggested_priority := none }
      (by decide),
   classify_color_validation.2.1
      { color := "BLUE", reasoning := "r", risk_factors := none,
        matched_protocols := none, suggested_priority := none }
      .blue rfl⟩

/-- C4: when the routing output's urgency string is not one of the four
enumerated values, the Routing Stage does not fail (`route` is total) and
the resulting urgency is the deterministic `COLOR_TO_URGENCY` default for
the classification's color: RED gives Immediate, YELLOW gives Within 30
min, GREEN gives Within 1 hour, BLUE gives Standard. -/
theorem route_unknown_urgency_falls_back :
    (∀ (d : RoutingOutputData) (cls : TriageClassification),
        ¬(d.urgency = "Immediate" ∨ d.urgency = "Within 30 min" ∨
          d.urgency = "Within 1 hour" ∨ d.urgency = "Standard") →
        (route d cls).urgency = COLOR_TO_URGENCY cls.color)
    ∧ COLOR_TO_URGENCY .red = .immediate
    ∧ COLOR_TO_URGENCY .yellow = .within30Min
    ∧ COLOR_TO_URGENCY .green = .within1Hour
    ∧ COLOR_TO_URGENCY .blue = .standard := by
  refine ⟨?_, rfl, rfl, rfl, rfl⟩
  intro d cls h
  have hp : urgency_map_get d.urgency = none := by
    unfold urgency_map_get
    split_ifs with h1 h2 h3 h4
    · exact absurd (Or.inl h1) h
    · exact absurd (Or.inr (Or.inl h2)) h
    · exact absurd (Or.inr (Or.inr (Or.inl h3))) h
    · exact absurd (Or.inr (Or.inr (Or.inr h4))) h
    · rfl
  unfold route
  rw [hp]
  rfl

/-- Witness for C4 at the concrete unrecognized urgency string "ASAP"
with a RED classification. -/
theorem route_unknown_urgency_falls_back_witness :
    (route { department := "Cardiology", doctor_type := "Cardiologist",
             urgency := "ASAP", room_type := none, preliminary_orders := none,
             contraindications := none, notes_for_staff := none }
           { color := .red, priority := .emergency, reasoning := "r",
             risk_factors := [], matched_protocols := [] }).urgency
      = COLOR_TO_URGENCY
          ({ color := .red, priority := .emergency, reasoning := "r",
             risk_factors := [], matched_protocols := [] } : TriageClassification).color :=
  route_unknown_urgency_falls_back.1
    { department := "Cardiology", doctor_type := "Cardiologist",
      urgency := "ASAP", room_type := none, preliminary_orders := none,
      contraindications := none, notes_for_staff := none }
    { color := .red, priority := .emergency, reasoning := "r",
      risk_factors := [], matched_protocols := [] }
    (by decide)

/-- C6: extraction validation rejects a pain_scale outside [1,10] (in
particular 0 and 11), accepts an absent pain_scale, and never clamps: a
successfully validated record carries the input value unchanged. -/
theorem extraction_pain_scale_validation :
    (∀ (i : AnamnesisInput) (n : Int),
        i.pain_scale = some n → (n < 1 ∨ 10 < n) →
        Anamnesis.validate i = .error .painScaleOutOfRange)
    ∧ (∀ i : AnamnesisInput, i.pain_scale = none →
        ∃ a, Anamnesis.validate i = .ok a ∧ a.pain_scale = none)
    ∧ (∀ (i : AnamnesisInput) (a : Anamnesis),
        Anamnesis.validate i = .ok a → a.pain_scale = i.pain_scale) := by
  refine ⟨?_, ?_, ?_⟩
  · intro i n hn hout
    simp only [Anamnesis.validate, hn]
    rw [if_neg (by omega)]
  · intro i hn
    simp only [Anamnesis.validate, hn]
    exact ⟨_, rfl, rfl⟩
  · intro i a h
    cases hps : i.pain_scale with
    | none =>
        simp only [Anamnesis.validate, hps] at h
        injection h with h'
        subst h'
        rfl
    | some n =>
        simp only [Anamnesis.validate, hps] at h
        split_ifs at h
        injection h with h'
        subst h'
        rfl

/-- Witness for C6 at concrete inputs with pain_scale 0 (rejected), 11
(rejected via the same clause), absent (accepted), and 9 (kept
unchanged). -/
theorem extraction_pain_scale_validation_witness :
    Anamnesis.validate
        { patient_name := "J", date_of_birth := "d", phone_number := none,
          emergency_contact_name := none, emergency_contact_phone := none,
          chief_complaint := "pain", onset := "now", duration := none,
          pain_scale := some 0, pain_type := none, location := none,
          radiation := none, associated_symptoms := none, medical_history := none,
          current_medications := none, allergies := none }
      = .error .painScaleOutOfRange
    ∧ Anamnesis.validate
        { patient_name := "J", date_of_birth := "d", phone_number := none,
          emergency_contact_name := none, emergency_contact_phone := none,
          chief_complaint := "pain", onset := "now", duration := none,
          pain_scale := some 11, pain_type := none, location := none,
          radiation := none, associated_symptoms := none, medical_history := none,
          current_medications := none, allergies := none }
      = .error .painScaleOutOfRange
    ∧ (∃ a, Anamnesis.validate
        { patient_name := "J", date_of_birth := "d", phone_number := none,
          emergency_contact_name := none, emergency_contact_phone := none,
          chief_complaint := "pain", onset := "now", duration := none,
          pain_scale := none, pain_type := none, location := none,
          radiation := none, associated_symptoms := none, medical_history := none,
          current_medications := none, allergies := none }
      = .ok a ∧ a.pain_scale = none) :=
  ⟨extraction_pain_scale_validation.1 _ 0 rfl (by omega),
   extraction_pain_scale_validation.1 _ 11 rfl (by omega),
   extraction_pain_scale_validation.2.1 _ rfl⟩

/-- C7 counterexample: the claim's description of the Extraction Stage
output handling disagrees with the stage at concrete inputs.  On the
fenced-but-unclosed text whose last line is the data "END" (not a fence
marker), the stage strips that last line anyway and hands the object to
the parser, where the claimed handling reports an unclosed fence; and on
an unfenced text with a leading note, the stage hands the whole text to
the parser instead of locating the outermost brace span. -/
theorem extraction_fence_handling_counterexample :
    anamnesisResponseCandidate "```json\n\x7b\"a\": 1\x7d\nEND" = "\x7b\"a\": 1\x7d"
    ∧ specResponseCandidate "```json\n\x7b\"a\": 1\x7d\nEND" = .error .fenceNotClosed
    ∧ ("END" : String) ≠ "```"
    ∧ anamnesisResponseCandidate "note \x7b\"a\": 1\x7d" = "note \x7b\"a\": 1\x7d"
    ∧ specResponseCandidate "note \x7b\"a\": 1\x7d" = .ok "\x7b\"a\": 1\x7d" :=
  ⟨rfl, rfl, by decide, rfl, rfl⟩

/-- C7 (amended): when the stripped response text does not start with a
fence the stage hands it to the parser unchanged; when it does start
with a fence the stage removes the first and the last line regardless of
whether the last line is a fence marker (an unclosed fence silently
loses its final line rather than raising an extraction parse error) and
hands the re-joined remainder to the parser whole, without locating a
brace-delimited span; parse failures surface as errors rather than a
defaulted record. -/
theorem extraction_fence_handling_amended :
    (∀ t : String, pyStartsWith (pyStrip t) "```" = false →
        anamnesisResponseCandidate t = pyStrip t)
    ∧ (∀ (l0 lN : String) (mid : List String),
        anamnesisFenceStrip (l0 :: (mid ++ [lN])) = mid)
    ∧ (∀ t : String, pyStartsWith (pyStrip t) "```" = true →
        anamnesisResponseCandidate t
          = joinNl (anamnesisFenceStrip (pySplitLines (pyStrip t)))) := by
  refine ⟨?_, ?_, ?_⟩
  · intro t h
    simp [anamnesisResponseCandidate, h]
  · intro l0 lN mid
    simp [anamnesisFenceStrip]
  · intro t h
    simp [anamnesisResponseCandidate, h]

/-- Witness for C7 (amended) at concrete texts, fenced and unfenced. -/
theorem extraction_fence_handling_amended_witness :
    anamnesisResponseCandidate "plain body" = pyStrip "plain body"
    ∧ anamnesisFenceStrip ["```json", "body", "END"] = ["body"]
    ∧ anamnesisResponseCandidate "```json\nbody\nEND"
        = joinNl (anamnesisFenceStrip (pySplitLines (pyStrip "```json\nbody\nEND"))) :=
  ⟨extraction_fence_handling_amended.1 "plain body" rfl,
   extraction_fence_handling_amended.2.1 "```json" "END" ["body"],
   extraction_fence_handling_amended.2.2 "```json\nbody\nEND" rfl⟩

/-- C8 counterexample: an advance with the empty answer on a session
awaiting question 1 is not rejected with the invalid-input error — the
empty string is recorded verbatim against question 1 and
current_question advances (the call then fails with the unrelated
missing-language-field AttributeError). -/
theorem chat_empty_answer_accepted_counterexample :
    (chat (create_session "s8") "").1.answers 1 = some ""
    ∧ (chat (create_session "s8") "").1.current_question = 2
    ∧ (chat (create_session "s8") "").2 = .error .attributeErrorLanguage
    ∧ ChatError.attributeErrorLanguage ≠ .invalidLanguageSelection :=
  ⟨rfl, rfl, rfl, by decide⟩

/-- C8 (amended): on a session awaiting question n (n at least 1, not
complete) every text input — empty or not — is recorded verbatim against
question n and current_question advances by one; the handler performs no
empty-answer validation.  The call returns a success response only when
this advance completes the questionnaire; otherwise it fails with the
AttributeError from reading the non-existent language field. -/
theorem chat_records_any_answer_verbatim :
    ∀ (s : SessionData) (m : String),
      s.is_complete = false → 1 ≤ s.current_question →
      (chat s m).1.answers s.current_question = some m
      ∧ (chat s m).1.current_question = s.current_question + 1
      ∧ (∀ q, q ≠ s.current_question → (chat s m).1.answers q = s.answers q)
      ∧ (get_total_questions < s.current_question + 1 → ∃ r, (chat s m).2 = .ok r)
      ∧ (s.current_question + 1 ≤ get_total_questions →
          (chat s m).2 = .error .attributeErrorLanguage) := by
  intro s m hc h1
  have h0 : ¬ s.current_question = 0 := by omega
  refine ⟨?_, ?_, fun q hq => chat_answers_at_other_keys s m q hq, ?_, ?_⟩
  · unfold chat
    simp only [hc, Bool.false_eq_true, if_false, if_neg h0]
    split <;> simp
  · unfold chat
    simp only [hc, Bool.false_eq_true, if_false, if_neg h0]
    split <;> rfl
  · intro hgt
    unfold chat
    simp only [hc, Bool.false_eq_true, if_false, if_neg h0]
    split
    · exact ⟨_, rfl⟩
    · next hno => exact absurd hgt hno
  · intro hle
    unfold chat
    simp only [hc, Bool.false_eq_true, if_false, if_neg h0]
    split
    · next hyes => exact absurd hyes (by omega)
    · rfl

/-- Witness for C8 (amended) at a fresh session and the empty answer. -/
theorem chat_records_any_answer_verbatim_witness :
    (chat (create_session "w8") "").1.answers (create_session "w8").current_question
      = some ""
    ∧ (chat (create_session "w8") "").1.current_question
      = (create_session "w8").current_question + 1 :=
  ⟨(chat_records_any_answer_verbatim (create_session "w8") "" rfl (Nat.le_refl 1)).1,
   (chat_records_any_answer_verbatim (create_session "w8") "" rfl (Nat.le_refl 1)).2.1⟩

/-- C9: every successful (non-erroring) chat advance increases
current_question by exactly one; no chat call ever writes an answer at a
question number below the current one (a question already passed is
never revisited); and an advance on a completed session fails with the
session-already-complete error and changes nothing. -/
theorem chat_advance_strictly_forward :
    (∀ (s : SessionData) (m : String) (s' : SessionData) (r : ChatResponse),
        chat s m = (s', .ok r) → s'.current_question = s.current_question + 1)
    ∧ (∀ (s : SessionData) (m : String) (q : Nat),
        q < s.current_question → (chat s m).1.answers q = s.answers q)
    ∧ (∀ (s : SessionData) (m : String),
        s.is_complete = true → chat s m = (s, .error .sessionAlreadyComplete)) := by
  refine ⟨?_,
    fun s m q hq => chat_answers_at_other_keys s m q (Nat.ne_of_lt hq),
    fun s m h => chat_on_complete s m h⟩
  intro s m s' r h
  unfold chat at h
  split at h
  · rw [Prod.mk.injEq] at h
    exact absurd h.2 (by simp)
  · dsimp only at h
    split at h
    · split at h <;> (rw [Prod.mk.injEq] at h; exact absurd h.2 (by simp))
    · split at h
      · rw [Prod.mk.injEq] at h
        rw [← h.1]
      · rw [Prod.mk.injEq] at h
        exact absurd h.2 (by simp)

/-- A completed session, used to witness the already-complete rejection. -/
def doneSession : SessionData :=
  { session_id := "done"
    answers := fun _ => none
    current_question := 15
    is_complete := true }

/-- A session awaiting the last question, used to witness a successful
advance. -/
def lastQuestionSession : SessionData :=
  { session_id := "last"
    answers := fun _ => none
    current_question := 14
    is_complete := false }

/-- Witness for C9: a successful advance from question 14 increments
current_question to 15, answers below the current question are
untouched, and the completed session is rejected unchanged. -/
theorem chat_advance_strictly_forward_witness :
    ({ session_id := "last", answers := fun q => if q = 14 then some "ans" else none,
       current_question := 15, is_complete := true } : SessionData).current_question
      = lastQuestionSession.current_question + 1
    ∧ (chat (create_session "w9") "hi").1.answers 0 = (create_session "w9").answers 0
    ∧ chat doneSession "x" = (doneSession, .error .sessionAlreadyComplete) :=
  ⟨chat_advance_strictly_forward.1 lastQuestionSession "ans" _
      { session_id := "last", question_number := get_total_questions,
        next_question := none, is_complete := true } rfl,
   chat_advance_strictly_forward.2.1 (create_session "w9") "hi" 0 Nat.zero_lt_one,
   chat_advance_strictly_forward.2.2 doneSession "x" rfl⟩

/-- Invariant of the reachable sessions, proved by induction over
`ReachableSession`. -/
theorem reachable_session_bounds :
    ∀ s : SessionData, ReachableSession s →
      1 ≤ s.current_question
      ∧ (∀ q, (s.answers q).isSome = true ↔ (1 ≤ q ∧ q < s.current_question))
      ∧ (s.is_complete = true ↔ get_total_questions < s.current_question) := by
  intro s hs
  induction hs with
  | create sid =>
      refine ⟨Nat.le_refl 1, fun q => ?_, ?_⟩
      · show (none : Option String).isSome = true ↔ (1 ≤ q ∧ q < 1)
        simp only [Option.isSome_none, Bool.false_eq_true, false_iff]
        omega
      · show (false = true) ↔ (get_total_questions < 1)
        simp only [Bool.false_eq_true, false_iff]
        decide
  | step s m hs ih =>
      obtain ⟨h1, h2, h3⟩ := ih
      by_cases hc : s.is_complete
      · rw [chat_on_complete s m hc]
        exact ⟨h1, h2, h3⟩
      · have hc' : s.is_complete = false := by simpa using hc
        have h0 : ¬ s.current_question = 0 := by omega
        unfold chat
        simp only [hc', Bool.false_eq_true, if_false, if_neg h0]
        split
        · next hgt =>
            refine ⟨?_, fun q => ?_, ?_⟩
            · show 1 ≤ s.current_question + 1
              omega
            · show (if q = s.current_question then some m else s.answers q).isSome = true
                ↔ (1 ≤ q ∧ q < s.current_question + 1)
              by_cases hq : q = s.current_question
              · subst hq
                rw [if_pos rfl]
                simp only [Option.isSome_some]
                constructor
                · intro _
                  omega
                · intro _
                  trivial
              · rw [if_neg hq, h2 q]
                omega
            · show (true = true) ↔ (get_total_questions < s.current_question + 1)
              have hgt' : get_total_questions < s.current_question + 1 := hgt
              simp [hgt']
        · next hgt =>
            have hle : ¬ get_total_questions < s.current_question + 1 := hgt
            refine ⟨?_, fun q => ?_, ?_⟩
            · show 1 ≤ s.current_question + 1
              omega
            · show (if q = s.current_question then some m else s.answers q).isSome = true
                ↔ (1 ≤ q ∧ q < s.current_question + 1)
              by_cases hq : q = s.current_question
              · subst hq
                rw [if_pos rfl]
                simp only [Option.isSome_some]
                constructor
                · intro _
                  omega
                · intro _
                  trivial
              · rw [if_neg hq, h2 q]
                omega
            · show (false = true) ↔ (get_total_questions < s.current_question + 1)
              simp only [Bool.false_eq_true, false_iff]
              exact hle

/-- C10: every reachable session has an answers map whose keys are
exactly the questions from 1 up to current_question minus one, is
complete exactly when current_question exceeds the total question count
(14), and no recorded answer is ever overwritten by a further chat
call. -/
theorem reachable_session_invariant :
    ∀ s : SessionData, ReachableSession s →
      (∀ q, (s.answers q).isSome = true ↔ (1 ≤ q ∧ q < s.current_question))
      ∧ (s.is_complete = true ↔ get_total_questions < s.current_question)
      ∧ (∀ (m : String) (q : Nat) (v : String),
          s.answers q = some v → (chat s m).1.answers q = some v)
      ∧ get_total_questions = 14 := by
  intro s hs
  obtain ⟨h1, h2, h3⟩ := reachable_session_bounds s hs
  refine ⟨h2, h3, ?_, rfl⟩
  intro m q v hqv
  have hlt : q < s.current_question := ((h2 q).1 (by rw [hqv]; rfl)).2
  rw [chat_answers_at_other_keys s m q (Nat.ne_of_lt hlt)]
  exact hqv

/-- Witness for C10 at the freshly created session. -/
theorem reachable_session_invariant_witness :
    (((create_session "w10").answers 3).isSome = true
      ↔ (1 ≤ 3 ∧ 3 < (create_session "w10").current_question))
    ∧ ((create_session "w10").is_complete = true
      ↔ get_total_questions < (create_session "w10").current_question) :=
  ⟨(reachable_session_invariant (create_session "w10") (.create "w10")).1 3,
   (reachable_session_invariant (create_session "w10") (.create "w10")).2.1⟩

/-- C3 (code bug): a freshly created session has current_question 1, so
the first chat input — here the string "zz-XX", which is not a language
code — is not validated against the language set at all: it is recorded
verbatim as the answer to question 1 and the session advances to
question 2; the call then fails with the AttributeError from reading the
non-existent `language` field, not with the invalid-input rejection the
language-selection state was supposed to produce. -/
theorem fresh_session_skips_language_validation :
    languageOptionKeys.contains "zz-XX" = false
    ∧ (create_session "s3").current_question = 1
    ∧ (chat (create_session "s3") "zz-XX").1.answers 1 = some "zz-XX"
    ∧ (chat (create_session "s3") "zz-XX").1.current_question = 2
    ∧ (chat (create_session "s3") "zz-XX").1.is_complete = false
    ∧ (chat (create_session "s3") "zz-XX").2 = .error .attributeErrorLanguage :=
  ⟨rfl, rfl, rfl, rfl, rfl, rfl⟩

/-- A concrete structured record for exercising the orchestrator. -/
def exampleAnamnesis : Anamnesis :=
  { patient_name := "Jane Doe"
    date_of_birth := "1980-01-01"
    phone_number := none
    emergency_contact_name := none
    emergency_contact_phone := none
    chief_complaint := "chest pain"
    onset := "2 hours ago"
    duration := none
    pain_scale := some 9
    pain_type := some "pressure"
    location := some "substernal"
    radiation := none
    associated_symptoms := ["diaphoresis"]
    medical_history := []
    current_medications := []
    allergies := [] }

/-- One concrete routing outcome. -/
def exampleRoutingA : Routing :=
  { department := "Cardiology", doctor_type := "Cardiologist",
    urgency := .immediate, room_type := none, preliminary_orders := [],
    contraindications := [], notes_for_staff := "" }

/-- A second, different concrete routing outcome. -/
def exampleRoutingB : Routing :=
  { department := "Neurology", doctor_type := "Neurologist",
    urgency := .standard, room_type := none, preliminary_orders := [],
    contraindications := [], notes_for_staff := "" }

/-- A completed session ready for pipeline submission. -/
def completeExampleSession : SessionData :=
  { session_id := "c", answers := fun _ => none,
    current_question := 15, is_complete := true }

/-- C2 (code bug): when a stage of the pipeline fails — here the
classification stage — the later stages are indeed never run (the
pipeline outcome is independent of the routing stage's behaviour) and no
partial result is stored; but the job is never marked failed: the code
stores None for the job, the error travels only on the submit call's
HTTP 500 response, and polling the job forever reports status
"processing" with no result and no error attached.  The last conjunct
shows the deployed composition: because `SessionData` has no `language`
field, the argument read `session.language` itself aborts every run the
same way. -/
theorem process_failure_polls_as_processing :
    (pipelineBody (.ok "en") (fun _ => .ok exampleAnamnesis)
        (fun _ => .error .classificationParseError)
        (fun _ _ => .ok exampleRoutingA) "sid"
      = pipelineBody (.ok "en") (fun _ => .ok exampleAnamnesis)
        (fun _ => .error .classificationParseError)
        (fun _ _ => .ok exampleRoutingB) "sid")
    ∧ (pipelineBody (.ok "en") (fun _ => .ok exampleAnamnesis)
        (fun _ => .error .classificationParseError)
        (fun _ _ => .ok exampleRoutingA) "sid"
      = .error .classificationParseError)
    ∧ (process_triage completeExampleSession "job" (.error .classificationParseError)
      = (some none, .error (.internalServerError .classificationParseError)))
    ∧ (get_result (some none)
      = .ok { status := "processing", result := none, error := none })
    ∧ ("processing" : String) ≠ "failed"
    ∧ (process_triage completeExampleSession "job"
        (pipelineBody appSessionLanguageRead (fun _ => .ok exampleAnamnesis)
          (fun _ => .error .classificationParseError)
          (fun _ _ => .ok exampleRoutingA) "sid")
      = (some none, .error (.internalServerError .attributeErrorLanguage))) :=
  ⟨rfl, rfl, rfl, rfl, by decide, rfl⟩

end TriageAI
